import Mathlib

/-!
Shallow embedding of the Mixxx light visualizer core:
`light_controller.py` (the `LightController` engine) and `mixxx_gui.py`
(the `_ChannelFadeSimulator` / `LampStateMirror` fade prediction logic).

Timestamps are modelled as exact rationals (Python uses IEEE floats for
`time.time()` / `time.monotonic()`; the claims under verification concern
exact algebraic relations at phase boundaries and monotonicity, both of
which are the intended real-number semantics of the code).  Machine
integers are modelled as `Int` with the explicit clamping the code
performs.  Python `int(x)` (truncation toward zero) is modelled by
`truncQ`.
-/

namespace MixxxLight

/-- Python `max(0, min(int(v), 255))` on an integer value. -/
def clampByte (v : ℤ) : ℤ := max 0 (min v 255)

/-- Python `max(0.0, min(x, 1.0))`. -/
def clamp01 (q : ℚ) : ℚ := max 0 (min q 1)

/-- Python `int(x)` on a rational: truncation toward zero. -/
def truncQ (q : ℚ) : ℤ := if 0 ≤ q then ⌊q⌋ else ⌈q⌉

/-- Componentwise byte clamp, mirroring
`tuple(max(0, min(int(v), 255)) for v in rgb)`. -/
def clamp3 (rgb : ℤ × ℤ × ℤ) : ℤ × ℤ × ℤ :=
  (clampByte rgb.1, clampByte rgb.2.1, clampByte rgb.2.2)

/-! ## `_ChannelFadeSimulator` (mixxx_gui.py) -/

/-- The `phase` string of `_ChannelFadeSimulator`: `"idle" | "in" | "out"`. -/
inductive Phase where
  | idle
  | inFade
  | outFade
deriving DecidableEq

/-- State of one `_ChannelFadeSimulator` instance. -/
structure ChannelFade where
  target : ℤ
  fade_in_ms : ℤ
  fade_out_ms : ℤ
  phase_start_ms : ℚ
  phase : Phase
deriving DecidableEq

/-- `_ChannelFadeSimulator.__init__` / `.reset`: all fields zero, phase idle. -/
def ChannelFade.resetState : ChannelFade :=
  { target := 0, fade_in_ms := 0, fade_out_ms := 0, phase_start_ms := 0, phase := .idle }

/-- `_ChannelFadeSimulator.start`. -/
def ChannelFade.start (_c : ChannelFade) (target fade_in_ms fade_out_ms : ℤ)
    (now_ms : ℚ) : ChannelFade :=
  let t := clampByte target
  let fi := max 0 fade_in_ms
  let fo := max 0 fade_out_ms
  { target := t, fade_in_ms := fi, fade_out_ms := fo, phase_start_ms := now_ms,
    phase := if fi = 0 then .outFade else .inFade }

/-- `_ChannelFadeSimulator.advance`: returns the updated state and the level
the Python method returns (`none` = Python `None`). -/
def ChannelFade.advance (c : ChannelFade) (now_ms : ℚ) : ChannelFade × Option ℤ :=
  match c.phase with
  | .idle => (c, none)
  | .inFade =>
    if c.fade_in_ms = 0 then
      ({ c with phase_start_ms := now_ms,
                phase := if 0 < c.fade_out_ms then .outFade else .idle }, some c.target)
    else
      let progress := clamp01 ((now_ms - c.phase_start_ms) / (c.fade_in_ms : ℚ))
      if 1 ≤ progress then
        ({ c with phase_start_ms := now_ms,
                  phase := if 0 < c.fade_out_ms then .outFade else .idle }, some c.target)
      else
        (c, some (truncQ ((c.target : ℚ) * progress)))
  | .outFade =>
    if c.fade_out_ms = 0 then
      ({ c with phase := .idle }, some c.target)
    else
      let progress := clamp01 ((now_ms - c.phase_start_ms) / (c.fade_out_ms : ℚ))
      if 1 ≤ progress then
        (ChannelFade.resetState, some 0)
      else
        (c, some (truncQ ((c.target : ℚ) * (1 - progress))))

/-! ## `LampStateMirror` (mixxx_gui.py) -/

/-- The `state` entry of `LampStateMirror._last_command`. -/
inductive CmdKind where
  | off
  | rgb
deriving DecidableEq

/-- `LampStateMirror._last_command`. -/
structure LastCommand where
  rgb : ℤ × ℤ × ℤ
  fade_in_ms : ℤ
  fade_out_ms : ℤ
  state : CmdKind
deriving DecidableEq

/-- State of `LampStateMirror`: three per-channel fades (`self._fades`),
the held levels (`self._current`) and the last command record. -/
structure LampMirror where
  fadeR : ChannelFade
  fadeG : ChannelFade
  fadeB : ChannelFade
  current : ℤ × ℤ × ℤ
  last_command : LastCommand
deriving DecidableEq

/-- `LampStateMirror.__init__`. -/
def LampMirror.initState : LampMirror :=
  { fadeR := ChannelFade.resetState, fadeG := ChannelFade.resetState,
    fadeB := ChannelFade.resetState, current := (0, 0, 0),
    last_command := ⟨(0, 0, 0), 0, 0, .off⟩ }

/-- `LampStateMirror._advance_locked`: advance each channel; a channel whose
`advance` returned a value gets that value as its held level (the Python
`val != next_vals[idx]` / `changed` bookkeeping has no further effect). -/
def LampMirror.advanceLocked (m : LampMirror) (now_ms : ℚ) : LampMirror :=
  let rR := m.fadeR.advance now_ms
  let rG := m.fadeG.advance now_ms
  let rB := m.fadeB.advance now_ms
  { m with fadeR := rR.1, fadeG := rG.1, fadeB := rB.1,
           current := (rR.2.getD m.current.1, rG.2.getD m.current.2.1,
                       rB.2.getD m.current.2.2) }

/-- `LampStateMirror.handle_rgb`. -/
def LampMirror.handle_rgb (m : LampMirror) (rgb : ℤ × ℤ × ℤ)
    (fade_in_ms fade_out_ms : ℤ) (now_ms : ℚ) : LampMirror :=
  let r := clampByte rgb.1
  let g := clampByte rgb.2.1
  let b := clampByte rgb.2.2
  let fi := max 0 fade_in_ms
  let fo := max 0 fade_out_ms
  let m' :=
    if fi = 0 ∧ fo = 0 then
      { m with fadeR := ChannelFade.resetState, fadeG := ChannelFade.resetState,
               fadeB := ChannelFade.resetState,
               current := (if 0 < r then r else m.current.1,
                           if 0 < g then g else m.current.2.1,
                           if 0 < b then b else m.current.2.2) }
    else
      let m1 :=
        { m with fadeR := if 0 < r then m.fadeR.start r fi fo now_ms else m.fadeR,
                 fadeG := if 0 < g then m.fadeG.start g fi fo now_ms else m.fadeG,
                 fadeB := if 0 < b then m.fadeB.start b fi fo now_ms else m.fadeB }
      m1.advanceLocked now_ms
  { m' with last_command := ⟨(r, g, b), fi, fo, .rgb⟩ }

/-- `LampStateMirror.handle_off`. -/
def LampMirror.handle_off (_m : LampMirror) : LampMirror :=
  { fadeR := ChannelFade.resetState, fadeG := ChannelFade.resetState,
    fadeB := ChannelFade.resetState, current := (0, 0, 0),
    last_command := ⟨(0, 0, 0), 0, 0, .off⟩ }

/-! ## `LightController` (light_controller.py) -/

/-- `LightMode` enumeration. -/
inductive LightMode where
  | off
  | on
  | fade_sync
  | auto_rgb_fade
  | beat_rgb_step
  | slider_slow_fade
  | fade_sync_every_4
  | strobe
deriving DecidableEq

/-- One wire command, as built by `_send_rgb` / `_send_off`. -/
inductive WireCmd where
  | rgb (r g b fade_in fade_out : ℤ)
  | off
deriving DecidableEq

/-- The pure command-construction part of `_send_rgb`: clamp each colour
component to a byte and force each fade duration nonnegative. -/
def sendRgbCmd (rgb : ℤ × ℤ × ℤ) (fade_in fade_out : ℤ) : WireCmd :=
  .rgb (clampByte rgb.1) (clampByte rgb.2.1) (clampByte rgb.2.2)
    (max 0 fade_in) (max 0 fade_out)

/-- Engine state guarded by `LightController._lock` (plus the cycle index). -/
structure Controller where
  mode : LightMode
  color : ℤ × ℤ × ℤ
  fade_out_ms : ℤ
  beat_counter : ℤ
  cycle_index : ℕ
  last_beat_send_ts : Option ℚ
deriving DecidableEq

/-- `LightController.__init__` state. -/
def Controller.initState : Controller :=
  { mode := .off, color := (0, 0, 0), fade_out_ms := 1000, beat_counter := 0,
    cycle_index := 0, last_beat_send_ts := none }

/-- `self._cycle_colors`. -/
def cycleColors : List (ℤ × ℤ × ℤ) := [(255, 0, 0), (0, 255, 0), (0, 0, 255)]

/-- The debounce test of `handle_beat`:
`if self._last_beat_send_ts and (now - self._last_beat_send_ts) < 0.2`.
Python truthiness makes a stored timestamp of exactly `0.0` skip the check. -/
def debounced (s : Controller) (now : ℚ) : Bool :=
  match s.last_beat_send_ts with
  | none => false
  | some ts => decide (ts ≠ 0) && decide (now - ts < 1 / 5)

/-- `LightController.handle_beat` (the `bpm_hint` argument is unused by the
code).  Returns the new engine state and the list of wire commands emitted. -/
def handle_beat (s : Controller) (now : ℚ) : Controller × List WireCmd :=
  if debounced s now then
    (s, [])
  else
    let fade_out_ms := max 0 s.fade_out_ms
    match s.mode with
    | .fade_sync =>
      ({ s with last_beat_send_ts := some now }, [sendRgbCmd s.color 0 fade_out_ms])
    | .beat_rgb_step =>
      let color := cycleColors.getD s.cycle_index (0, 0, 0)
      ({ s with cycle_index := (s.cycle_index + 1) % cycleColors.length,
                last_beat_send_ts := some now }, [sendRgbCmd color 0 fade_out_ms])
    | .fade_sync_every_4 =>
      let c := (s.beat_counter + 1) % 8
      if c ≠ 0 then
        ({ s with beat_counter := c }, [])
      else
        ({ s with beat_counter := c, last_beat_send_ts := some now },
          [sendRgbCmd s.color 0 fade_out_ms])
    | _ => (s, [])

/-- The state mutation of `set_mode` (performed under the lock, before any
serial emission). -/
def set_mode_state (s : Controller) (m : LightMode) : Controller :=
  { s with mode := m, beat_counter := 0, cycle_index := 0, last_beat_send_ts := none }

/-- The immediate emissions of `set_mode` (worker threads started for the
animated modes emit later, on their own schedule, and are not part of the
synchronous call). -/
def set_mode_emits (s : Controller) (m : LightMode) : List WireCmd :=
  match m with
  | .off => [WireCmd.off]
  | .on => [sendRgbCmd s.color 0 0]
  | _ => []

/-- `LightController.set_mode`, with the serial send assumed to succeed. -/
def set_mode (s : Controller) (m : LightMode) : Controller × List WireCmd :=
  (set_mode_state s m, set_mode_emits s m)

/-- `LightController.set_mode` with an explicit send outcome: the state is
mutated first; if an emission is attempted and the send fails, the
exception propagates (`Except.error`) but the state mutation stands. -/
def set_mode_f (s : Controller) (m : LightMode) (sendOk : Bool) :
    Controller × Except Unit (List WireCmd) :=
  (set_mode_state s m,
    match set_mode_emits s m with
    | [] => .ok []
    | es => if sendOk then .ok es else .error ())

/-- `LightController.set_color`, send assumed to succeed. -/
def set_color (s : Controller) (rgb : ℤ × ℤ × ℤ) : Controller × List WireCmd :=
  let c := clamp3 rgb
  if s.mode = .on then
    ({ s with color := c }, [sendRgbCmd c 0 0])
  else
    ({ s with color := c }, [])

/-- `LightController.set_color` with an explicit send outcome (the clamped
colour is stored before the send is attempted). -/
def set_color_f (s : Controller) (rgb : ℤ × ℤ × ℤ) (sendOk : Bool) :
    Controller × Except Unit (List WireCmd) :=
  let c := clamp3 rgb
  ({ s with color := c },
    if s.mode = .on then (if sendOk then .ok [sendRgbCmd c 0 0] else .error ())
    else .ok [])

/-- `LightController.set_decay_ms`: clamp to `[0, 10000]`, then `int(ms)`. -/
def set_decay_ms (s : Controller) (milliseconds : ℚ) : Controller :=
  { s with fade_out_ms := truncQ (max 0 (min milliseconds 10000)) }

/-! ## Public operation sequences -/

/-- One public engine operation. -/
inductive EngineOp where
  | setMode (m : LightMode)
  | setColor (rgb : ℤ × ℤ × ℤ)
  | setDecayMs (ms : ℚ)
  | handleBeat (now : ℚ)

/-- Run one public operation. -/
def runOp (s : Controller) (op : EngineOp) : Controller × List WireCmd :=
  match op with
  | .setMode m => set_mode s m
  | .setColor rgb => set_color s rgb
  | .setDecayMs ms => (set_decay_ms s ms, [])
  | .handleBeat now => handle_beat s now

/-- Run a sequence of public operations, collecting all emissions. -/
def runOps (s : Controller) (ops : List EngineOp) : Controller × List WireCmd :=
  match ops with
  | [] => (s, [])
  | op :: rest =>
    let r := runOp s op
    let r' := runOps r.1 rest
    (r'.1, r.2 ++ r'.2)

/-- Run `handle_beat` over a list of beat times, collecting emissions. -/
def runBeats (s : Controller) (ts : List ℚ) : Controller × List WireCmd :=
  match ts with
  | [] => (s, [])
  | t :: rest =>
    let r := handle_beat s t
    let r' := runBeats r.1 rest
    (r'.1, r.2 ++ r'.2)

/-- Every beat in the list passes the debounce test in the state it meets. -/
def allAccepted (s : Controller) (ts : List ℚ) : Bool :=
  match ts with
  | [] => true
  | t :: rest => !debounced s t && allAccepted (handle_beat s t).1 rest

/-- Range predicate for a wire command: colour bytes in `[0,255]`, fade
durations in `[0,10000]`. -/
def WireCmd.inRangeB : WireCmd → Bool
  | .off => true
  | .rgb r g b fi fo =>
    decide (0 ≤ r) && decide (r ≤ 255) && decide (0 ≤ g) && decide (g ≤ 255) &&
    decide (0 ≤ b) && decide (b ≤ 255) &&
    decide (0 ≤ fi) && decide (fi ≤ 10000) && decide (0 ≤ fo) && decide (fo ≤ 10000)

/-! ## Mirror / serial interaction of `_send_rgb` and `_send_off` -/

/-- Observable events of one `_send_rgb` / `_send_off` call: the mirror
callback (or the caught-and-logged mirror error) and the serial write. -/
inductive SendEvent where
  | mirrorRgb (rgb : ℤ × ℤ × ℤ) (fade_in fade_out : ℤ)
  | mirrorOff
  | mirrorError
  | wireWrite (cmd : WireCmd)
deriving DecidableEq

/-- `_send_rgb`: clamp, build the command, call the mirror (exceptions are
caught and logged), then write the line to serial. -/
def send_rgb_events (hasMirror mirrorRaises : Bool) (rgb : ℤ × ℤ × ℤ)
    (fade_in fade_out : ℤ) : List SendEvent :=
  let r := clampByte rgb.1
  let g := clampByte rgb.2.1
  let b := clampByte rgb.2.2
  let fi := max 0 fade_in
  let fo := max 0 fade_out
  (if hasMirror then
    [if mirrorRaises then SendEvent.mirrorError else SendEvent.mirrorRgb (r, g, b) fi fo]
   else []) ++ [SendEvent.wireWrite (WireCmd.rgb r g b fi fo)]

/-- `_send_off`: call the mirror's `handle_off` (exceptions caught), then
write `OFF`. -/
def send_off_events (hasMirror mirrorRaises : Bool) : List SendEvent :=
  (if hasMirror then
    [if mirrorRaises then SendEvent.mirrorError else SendEvent.mirrorOff]
   else []) ++ [SendEvent.wireWrite WireCmd.off]

/-- The serial writes among a list of send events. -/
def wireWrites (es : List SendEvent) : List WireCmd :=
  es.filterMap fun e =>
    match e with
    | .wireWrite c => some c
    | _ => none

end MixxxLight

namespace MixxxLight

/-! ## Helper lemmas -/

theorem clampByte_nonneg (v : ℤ) : 0 ≤ clampByte v := by
  unfold clampByte; omega

theorem clampByte_le (v : ℤ) : clampByte v ≤ 255 := by
  unfold clampByte; omega

theorem clampByte_of_range (v : ℤ) (h0 : 0 ≤ v) (h1 : v ≤ 255) : clampByte v = v := by
  unfold clampByte; omega

theorem clamp01_nonneg (q : ℚ) : 0 ≤ clamp01 q := le_max_left 0 _

theorem clamp01_le_one (q : ℚ) : clamp01 q ≤ 1 := by
  unfold clamp01
  rcases le_total q 1 with h | h
  · simp [min_eq_left h, h]
  · simp [min_eq_right h]

theorem clamp01_of_range (q : ℚ) (h0 : 0 ≤ q) (h1 : q ≤ 1) : clamp01 q = q := by
  unfold clamp01
  rw [min_eq_left h1, max_eq_right h0]

theorem clamp01_mono {q r : ℚ} (h : q ≤ r) : clamp01 q ≤ clamp01 r :=
  max_le_max le_rfl (min_le_min h le_rfl)

theorem clamp01_lt_one_iff (q : ℚ) : clamp01 q < 1 ↔ q < 1 := by
  unfold clamp01
  constructor
  · intro h
    by_contra hq
    push_neg at hq
    rw [min_eq_right hq] at h
    simp at h
  · intro h
    rw [min_eq_left h.le]
    exact max_lt one_pos h

theorem truncQ_of_nonneg (q : ℚ) (h : 0 ≤ q) : truncQ q = ⌊q⌋ := if_pos h

theorem truncQ_nonneg (q : ℚ) (h : 0 ≤ q) : 0 ≤ truncQ q := by
  rw [truncQ_of_nonneg q h]
  exact Int.floor_nonneg.mpr h

theorem truncQ_mono_of_nonneg {q r : ℚ} (h0 : 0 ≤ q) (h : q ≤ r) :
    truncQ q ≤ truncQ r := by
  rw [truncQ_of_nonneg q h0, truncQ_of_nonneg r (h0.trans h)]
  exact Int.floor_le_floor h

end MixxxLight

open MixxxLight

/-- Claim C4: with both fades zero, `LampStateMirror.handle_rgb` is an
immediate set: starting from held levels `(50,50,50)`, the command
`RGB 0 100 0 0 0` yields `(50,100,50)`; every channel with positive target
snaps to it, every zero-target channel keeps its level, and all in-progress
fades are cancelled (reset to idle). -/
theorem c4_immediate_set_quirk (m : LampMirror) (now : ℚ)
    (h : m.current = (50, 50, 50)) :
    (m.handle_rgb (0, 100, 0) 0 0 now).current = (50, 100, 50) ∧
    (m.handle_rgb (0, 100, 0) 0 0 now).fadeR = ChannelFade.resetState ∧
    (m.handle_rgb (0, 100, 0) 0 0 now).fadeG = ChannelFade.resetState ∧
    (m.handle_rgb (0, 100, 0) 0 0 now).fadeB = ChannelFade.resetState ∧
    (∀ (m2 : LampMirror) (rgb : ℤ × ℤ × ℤ) (t : ℚ),
      (m2.handle_rgb rgb 0 0 t).current =
        ((if 0 < clampByte rgb.1 then clampByte rgb.1 else m2.current.1),
         (if 0 < clampByte rgb.2.1 then clampByte rgb.2.1 else m2.current.2.1),
         (if 0 < clampByte rgb.2.2 then clampByte rgb.2.2 else m2.current.2.2)) ∧
      (m2.handle_rgb rgb 0 0 t).fadeR = ChannelFade.resetState ∧
      (m2.handle_rgb rgb 0 0 t).fadeG = ChannelFade.resetState ∧
      (m2.handle_rgb rgb 0 0 t).fadeB = ChannelFade.resetState) := by
  have hgen : ∀ (m2 : LampMirror) (rgb : ℤ × ℤ × ℤ) (t : ℚ),
      (m2.handle_rgb rgb 0 0 t).current =
        ((if 0 < clampByte rgb.1 then clampByte rgb.1 else m2.current.1),
         (if 0 < clampByte rgb.2.1 then clampByte rgb.2.1 else m2.current.2.1),
         (if 0 < clampByte rgb.2.2 then clampByte rgb.2.2 else m2.current.2.2)) ∧
      (m2.handle_rgb rgb 0 0 t).fadeR = ChannelFade.resetState ∧
      (m2.handle_rgb rgb 0 0 t).fadeG = ChannelFade.resetState ∧
      (m2.handle_rgb rgb 0 0 t).fadeB = ChannelFade.resetState := by
    intro m2 rgb t
    simp [LampMirror.handle_rgb]
  refine ⟨?_, (hgen m (0, 100, 0) now).2.1, (hgen m (0, 100, 0) now).2.2.1,
    (hgen m (0, 100, 0) now).2.2.2, hgen⟩
  rw [(hgen m (0, 100, 0) now).1, h]
  decide

/-- Witness for C4 at a concrete mirror state holding `(50,50,50)` with an
in-progress red fade. -/
theorem c4_immediate_set_quirk_witness :
    (({ LampMirror.initState with
        current := (50, 50, 50),
        fadeR := ChannelFade.resetState.start 200 100 100 0 } :
          LampMirror).handle_rgb (0, 100, 0) 0 0 1).current = (50, 100, 50) :=
  (c4_immediate_set_quirk _ 1 rfl).1

/-- Claim C8: `set_color` clamps each channel to `[0,255]` and stores the
result as the static colour in every mode; it emits (the clamped colour
with zero fades) exactly when the current mode is `On`. -/
theorem c8_set_color_behavior (s : Controller) (rgb : ℤ × ℤ × ℤ) :
    (set_color s rgb).1.color = clamp3 rgb ∧
    (set_color s rgb).1.mode = s.mode ∧
    (0 ≤ (clamp3 rgb).1 ∧ (clamp3 rgb).1 ≤ 255 ∧
     0 ≤ (clamp3 rgb).2.1 ∧ (clamp3 rgb).2.1 ≤ 255 ∧
     0 ≤ (clamp3 rgb).2.2 ∧ (clamp3 rgb).2.2 ≤ 255) ∧
    (set_color s rgb).2 =
      (if s.mode = .on then [sendRgbCmd (clamp3 rgb) 0 0] else []) ∧
    ((set_color s rgb).2 ≠ [] ↔ s.mode = .on) := by
  unfold set_color
  by_cases hm : s.mode = .on <;>
    simp [hm, clamp3, clampByte_nonneg, clampByte_le]

/-- Claim C9: a mirror sink that raises from `handle_rgb` / `handle_off` is
caught; the serial write still happens with the same command bytes, so the
wire output of `_send_rgb` / `_send_off` is independent of mirror failure. -/
theorem c9_mirror_failure_never_blocks_wire (hasMirror mirrorRaises : Bool)
    (rgb : ℤ × ℤ × ℤ) (fade_in fade_out : ℤ) :
    wireWrites (send_rgb_events hasMirror mirrorRaises rgb fade_in fade_out) =
      [sendRgbCmd rgb fade_in fade_out] ∧
    wireWrites (send_off_events hasMirror mirrorRaises) = [WireCmd.off] := by
  cases hasMirror <;> cases mirrorRaises <;>
    simp [wireWrites, send_rgb_events, send_off_events, sendRgbCmd,
      List.filterMap]

namespace MixxxLight

/-- `advance` leaves the state untouched when the channel is idle, or when
its active phase has a positive duration that has not yet elapsed. -/
theorem advance_fst_eq_self (c : ChannelFade) (now : ℚ)
    (h : c.phase = .idle ∨
      (c.phase = .inFade ∧ 0 < c.fade_in_ms ∧ now - c.phase_start_ms < c.fade_in_ms) ∨
      (c.phase = .outFade ∧ 0 < c.fade_out_ms ∧ now - c.phase_start_ms < c.fade_out_ms)) :
    (c.advance now).1 = c := by
  rcases h with h | ⟨hp, hfi, hlt⟩ | ⟨hp, hfo, hlt⟩
  · simp [ChannelFade.advance, h]
  · have hne : c.fade_in_ms ≠ 0 := by omega
    have hraw : (now - c.phase_start_ms) / (c.fade_in_ms : ℚ) < 1 := by
      rw [div_lt_one (by exact_mod_cast hfi)]
      exact_mod_cast hlt
    have hcl : clamp01 ((now - c.phase_start_ms) / (c.fade_in_ms : ℚ)) < 1 :=
      (clamp01_lt_one_iff _).mpr hraw
    simp [ChannelFade.advance, hp, hne, not_le.mpr hcl]
  · have hne : c.fade_out_ms ≠ 0 := by omega
    have hraw : (now - c.phase_start_ms) / (c.fade_out_ms : ℚ) < 1 := by
      rw [div_lt_one (by exact_mod_cast hfo)]
      exact_mod_cast hlt
    have hcl : clamp01 ((now - c.phase_start_ms) / (c.fade_out_ms : ℚ)) < 1 :=
      (clamp01_lt_one_iff _).mpr hraw
    simp [ChannelFade.advance, hp, hne, not_le.mpr hcl]

end MixxxLight

/-- Counterexample to claim C3 as stated: the simulator truncates
(`int(...)`) rather than rounding to nearest.  A fade started with target 3
and `fadeInMs = 2`, advanced halfway, returns level 1, while
`round(target × progress) = round(1.5) = 2`. -/
theorem c3_counterexample_round_vs_trunc :
    ((ChannelFade.resetState.start 3 2 5 0).advance 1).2 = some 1 ∧
    round ((3 : ℚ) * clamp01 ((1 - (0 : ℚ)) / 2)) = 2 := by
  constructor
  · norm_num [ChannelFade.start, ChannelFade.advance, ChannelFade.resetState,
      clampByte, clamp01, truncQ, max_def, min_def]
  · norm_num [clamp01, max_def, min_def, round_eq]

/-- Claim C3 amended: in the In phase with `0 < now − phaseStart < fadeInMs`,
`advance(now)` leaves the state unchanged and returns
`⌊target × progress⌋` (truncation, not rounding to nearest), with
`progress = clamp((now − phaseStart)/fadeInMs, 0, 1)`; symmetrically the Out
phase returns `⌊target × (1 − progress)⌋`. -/
theorem c3_level_formula_floor (cin cout : ChannelFade) (t1 t2 : ℚ)
    (h1 : 0 ≤ cin.target) (h2 : cin.phase = .inFade) (h3 : 0 < cin.fade_in_ms)
    (h4 : 0 < t1 - cin.phase_start_ms) (h5 : t1 - cin.phase_start_ms < cin.fade_in_ms)
    (g1 : 0 ≤ cout.target) (g2 : cout.phase = .outFade) (g3 : 0 < cout.fade_out_ms)
    (g4 : 0 < t2 - cout.phase_start_ms) (g5 : t2 - cout.phase_start_ms < cout.fade_out_ms) :
    cin.advance t1 =
      (cin, some ⌊(cin.target : ℚ) *
        clamp01 ((t1 - cin.phase_start_ms) / (cin.fade_in_ms : ℚ))⌋) ∧
    cout.advance t2 =
      (cout, some ⌊(cout.target : ℚ) *
        (1 - clamp01 ((t2 - cout.phase_start_ms) / (cout.fade_out_ms : ℚ)))⌋) := by
  constructor
  · have hne : cin.fade_in_ms ≠ 0 := by omega
    have hraw : (t1 - cin.phase_start_ms) / (cin.fade_in_ms : ℚ) < 1 := by
      rw [div_lt_one (by exact_mod_cast h3)]
      exact_mod_cast h5
    have hcl : clamp01 ((t1 - cin.phase_start_ms) / (cin.fade_in_ms : ℚ)) < 1 :=
      (clamp01_lt_one_iff _).mpr hraw
    have hnn : (0 : ℚ) ≤ (cin.target : ℚ) *
        clamp01 ((t1 - cin.phase_start_ms) / (cin.fade_in_ms : ℚ)) :=
      mul_nonneg (by exact_mod_cast h1) (clamp01_nonneg _)
    simp [ChannelFade.advance, h2, hne, not_le.mpr hcl, truncQ_of_nonneg _ hnn]
  · have hne : cout.fade_out_ms ≠ 0 := by omega
    have hraw : (t2 - cout.phase_start_ms) / (cout.fade_out_ms : ℚ) < 1 := by
      rw [div_lt_one (by exact_mod_cast g3)]
      exact_mod_cast g5
    have hcl : clamp01 ((t2 - cout.phase_start_ms) / (cout.fade_out_ms : ℚ)) < 1 :=
      (clamp01_lt_one_iff _).mpr hraw
    have hnn : (0 : ℚ) ≤ (cout.target : ℚ) *
        (1 - clamp01 ((t2 - cout.phase_start_ms) / (cout.fade_out_ms : ℚ))) :=
      mul_nonneg (by exact_mod_cast g1)
        (by linarith [clamp01_le_one ((t2 - cout.phase_start_ms) / (cout.fade_out_ms : ℚ))])
    simp [ChannelFade.advance, g2, hne, not_le.mpr hcl, truncQ_of_nonneg _ hnn]

/-- Witness for the amended C3 at concrete in-phase and out-phase states. -/
theorem c3_level_formula_floor_witness :
    (({ target := 3, fade_in_ms := 2, fade_out_ms := 5, phase_start_ms := 0,
        phase := .inFade } : ChannelFade).advance 1).2 = some 1 ∧
    (({ target := 200, fade_in_ms := 0, fade_out_ms := 100, phase_start_ms := 0,
        phase := .outFade } : ChannelFade).advance 40).2 = some 120 := by
  have h := c3_level_formula_floor
    { target := 3, fade_in_ms := 2, fade_out_ms := 5, phase_start_ms := 0,
      phase := .inFade }
    { target := 200, fade_in_ms := 0, fade_out_ms := 100, phase_start_ms := 0,
      phase := .outFade }
    1 40 (by decide) rfl (by decide) (by norm_num) (by norm_num)
    (by decide) rfl (by decide) (by norm_num) (by norm_num)
  refine ⟨?_, ?_⟩
  · rw [h.1]
    norm_num [clamp01, max_def, min_def]
  · rw [h.2]
    norm_num [clamp01, max_def, min_def]

/-- Counterexample to claim C10 as stated: with a red fade in progress whose
In phase has already elapsed, a command mentioning only green
(`RGB 0 50 0`, `fadeInMs = 100`) changes the red channel's fade state (the
embedded advance step transitions it In → Out), so the zero-target channel
is not "left completely unchanged". -/
theorem c10_counterexample_advance_mutates :
    ((LampMirror.initState.handle_rgb (200, 0, 0) 100 100 0).handle_rgb
        (0, 50, 0) 100 0 150).fadeR ≠
      (LampMirror.initState.handle_rgb (200, 0, 0) 100 100 0).fadeR := by
  norm_num [LampMirror.handle_rgb, LampMirror.advanceLocked, LampMirror.initState,
    ChannelFade.start, ChannelFade.advance, ChannelFade.resetState,
    clampByte, clamp01, truncQ, max_def, min_def, ChannelFade.mk.injEq]

/-- Claim C10 amended: with a nonzero fade duration, only channels whose
clamped target is positive are started or restarted (with the clamped
target); a zero-target channel is never started, and its fade state is left
completely unchanged provided its phase is idle or its active phase has a
positive duration that has not yet elapsed at the command time.  (Every
channel does receive one `advance` step at the command time, which can
transition an already-elapsed phase, as the counterexample shows.) -/
theorem c10_zero_target_channels (m : LampMirror) (rgb : ℤ × ℤ × ℤ)
    (fi fo : ℤ) (now : ℚ) (hfade : ¬(max 0 fi = 0 ∧ max 0 fo = 0)) :
    (¬ 0 < clampByte rgb.1 →
      (m.fadeR.phase = .idle ∨
        (m.fadeR.phase = .inFade ∧ 0 < m.fadeR.fade_in_ms ∧
          now - m.fadeR.phase_start_ms < m.fadeR.fade_in_ms) ∨
        (m.fadeR.phase = .outFade ∧ 0 < m.fadeR.fade_out_ms ∧
          now - m.fadeR.phase_start_ms < m.fadeR.fade_out_ms)) →
      (m.handle_rgb rgb fi fo now).fadeR = m.fadeR) ∧
    (¬ 0 < clampByte rgb.2.1 →
      (m.fadeG.phase = .idle ∨
        (m.fadeG.phase = .inFade ∧ 0 < m.fadeG.fade_in_ms ∧
          now - m.fadeG.phase_start_ms < m.fadeG.fade_in_ms) ∨
        (m.fadeG.phase = .outFade ∧ 0 < m.fadeG.fade_out_ms ∧
          now - m.fadeG.phase_start_ms < m.fadeG.fade_out_ms)) →
      (m.handle_rgb rgb fi fo now).fadeG = m.fadeG) ∧
    (¬ 0 < clampByte rgb.2.2 →
      (m.fadeB.phase = .idle ∨
        (m.fadeB.phase = .inFade ∧ 0 < m.fadeB.fade_in_ms ∧
          now - m.fadeB.phase_start_ms < m.fadeB.fade_in_ms) ∨
        (m.fadeB.phase = .outFade ∧ 0 < m.fadeB.fade_out_ms ∧
          now - m.fadeB.phase_start_ms < m.fadeB.fade_out_ms)) →
      (m.handle_rgb rgb fi fo now).fadeB = m.fadeB) ∧
    (0 < clampByte rgb.1 →
      (m.handle_rgb rgb fi fo now).fadeR =
        ((m.fadeR.start (clampByte rgb.1) (max 0 fi) (max 0 fo) now).advance now).1) ∧
    (0 < clampByte rgb.2.1 →
      (m.handle_rgb rgb fi fo now).fadeG =
        ((m.fadeG.start (clampByte rgb.2.1) (max 0 fi) (max 0 fo) now).advance now).1) ∧
    (0 < clampByte rgb.2.2 →
      (m.handle_rgb rgb fi fo now).fadeB =
        ((m.fadeB.start (clampByte rgb.2.2) (max 0 fi) (max 0 fo) now).advance now).1) := by
  refine ⟨?_, ?_, ?_, ?_, ?_, ?_⟩ <;> intro h1 <;>
    first
    | (intro h2
       simp only [LampMirror.handle_rgb, if_neg hfade, LampMirror.advanceLocked,
         if_neg h1]
       exact advance_fst_eq_self _ _ h2)
    | (simp only [LampMirror.handle_rgb, if_neg hfade, LampMirror.advanceLocked,
        if_pos h1])

/-- Witness for the amended C10: an in-progress, not-yet-elapsed red fade
survives a green-only command untouched. -/
theorem c10_zero_target_channels_witness :
    (({ LampMirror.initState with
        fadeR := { target := 150, fade_in_ms := 300, fade_out_ms := 300,
                   phase_start_ms := 0, phase := .inFade } } :
        LampMirror).handle_rgb (0, 64, 0) 120 0 100).fadeR =
      ({ target := 150, fade_in_ms := 300, fade_out_ms := 300,
         phase_start_ms := 0, phase := .inFade } : ChannelFade) :=
  (c10_zero_target_channels _ (0, 64, 0) 120 0 100
      (by norm_num [max_def])).1
    (by norm_num [clampByte, max_def, min_def])
    (Or.inr (Or.inl ⟨rfl, by decide, by norm_num⟩))

namespace MixxxLight

/-! ## Helpers for the beat-debounce and emission-range results -/

theorem handle_beat_emits_le_one (s : Controller) (t : ℚ) :
    (handle_beat s t).2.length ≤ 1 := by
  unfold handle_beat
  split
  · simp
  · split <;> simp <;> split <;> simp

theorem handle_beat_emits_ts (s : Controller) (t : ℚ)
    (h : (handle_beat s t).2 ≠ []) :
    (handle_beat s t).1.last_beat_send_ts = some t := by
  by_cases hd : debounced s t
  · simp [handle_beat, hd] at h
  · cases hm : s.mode <;> simp [handle_beat, hd, hm] at h ⊢
    by_cases hc : (8 : ℤ) ∣ s.beat_counter + 1 <;> simp [hc] at h ⊢

theorem debounced_of_close (s : Controller) (t1 t2 : ℚ)
    (hs : s.last_beat_send_ts = some t1) (h0 : t1 ≠ 0) (hlt : t2 - t1 < 1 / 5) :
    debounced s t2 = true := by
  simp only [debounced, hs]
  simp [h0, one_div]
  linarith

theorem handle_beat_of_debounced (s : Controller) (t : ℚ)
    (h : debounced s t = true) : handle_beat s t = (s, []) := by
  simp [handle_beat, h]

/-- Invariant maintained by every public operation: the stored decay is in
`[0, 10000]`. -/
def fadeInv (s : Controller) : Prop := 0 ≤ s.fade_out_ms ∧ s.fade_out_ms ≤ 10000

theorem sendRgbCmd_inRange (rgb : ℤ × ℤ × ℤ) (fi fo : ℤ)
    (hfi : fi ≤ 10000) (hfo : fo ≤ 10000) :
    (sendRgbCmd rgb fi fo).inRangeB = true := by
  simp [sendRgbCmd, WireCmd.inRangeB, clampByte]
  omega

theorem set_decay_ms_fadeInv (s : Controller) (ms : ℚ) :
    fadeInv (set_decay_ms s ms) := by
  unfold set_decay_ms fadeInv
  constructor
  · exact truncQ_nonneg _ (le_max_left _ _)
  · rw [truncQ_of_nonneg _ (le_max_left _ _)]
    have h1 : max 0 (min ms 10000) ≤ (10000 : ℚ) :=
      max_le (by norm_num) (min_le_right _ _)
    have h2 := Int.floor_le_floor h1
    simpa using h2

theorem handle_beat_emits_shape (s : Controller) (t : ℚ) :
    (handle_beat s t).2 = [] ∨
    ∃ c : ℤ × ℤ × ℤ, (handle_beat s t).2 = [sendRgbCmd c 0 (max 0 s.fade_out_ms)] := by
  by_cases hd : debounced s t
  · left
    simp [handle_beat, hd]
  · cases hm : s.mode <;> simp [handle_beat, hd, hm]
    · exact ⟨_, _, _, rfl⟩
    · exact ⟨_, _, _, rfl⟩
    · by_cases hdvd : (8 : ℤ) ∣ s.beat_counter + 1 <;> simp [hdvd]
      exact ⟨_, _, _, rfl⟩

theorem runOp_fadeInv (s : Controller) (op : EngineOp) (h : fadeInv s) :
    fadeInv (runOp s op).1 := by
  cases op with
  | setMode m => exact h
  | setColor rgb =>
    simp only [runOp, set_color]
    split <;> exact h
  | setDecayMs ms => exact set_decay_ms_fadeInv s ms
  | handleBeat t =>
    simp only [runOp, handle_beat]
    split
    · exact h
    · split <;> (try exact h) <;> split <;> exact h

theorem runOp_emits_inRange (s : Controller) (op : EngineOp) (h : fadeInv s) :
    ∀ cmd ∈ (runOp s op).2, cmd.inRangeB = true := by
  have h0 : (0 : ℤ) ≤ 10000 := by norm_num
  have hmax : max 0 s.fade_out_ms ≤ 10000 := max_le h0 h.2
  cases op with
  | setMode m =>
    intro cmd hc
    cases m <;> simp [runOp, set_mode, set_mode_emits] at hc
    · rw [hc]
      rfl
    · rw [hc]
      exact sendRgbCmd_inRange _ _ _ h0 h0
  | setColor rgb =>
    simp only [runOp, set_color]
    split <;> intro cmd hc <;> simp at hc
    rw [hc]
    exact sendRgbCmd_inRange _ _ _ h0 h0
  | setDecayMs ms => simp [runOp]
  | handleBeat t =>
    intro cmd hc
    simp only [runOp] at hc
    rcases handle_beat_emits_shape s t with hsh | ⟨c, hsh⟩ <;> rw [hsh] at hc
    · simp at hc
    · simp at hc
      rw [hc]
      exact sendRgbCmd_inRange _ _ _ h0 hmax

theorem runOps_emits_inRange (ops : List EngineOp) :
    ∀ (s : Controller), fadeInv s → ∀ cmd ∈ (runOps s ops).2, cmd.inRangeB = true := by
  induction ops with
  | nil => intro s _ cmd hc; simp [runOps] at hc
  | cons op rest ih =>
    intro s hs cmd hc
    simp only [runOps, List.mem_append] at hc
    rcases hc with hc | hc
    · exact runOp_emits_inRange s op hs cmd hc
    · exact ih (runOp s op).1 (runOp_fadeInv s op hs) cmd hc

end MixxxLight

/-- Claim C5: two `handle_beat` calls less than 200 ms apart produce at most
one emission between them; if the first emitted, the second is dropped
silently, with no emission and no state change at all (beat counter and
cycle index included).  Timestamps come from `time.time()` and are positive
(a stored timestamp of exactly `0.0` would be falsy in the Python debounce
test, so positivity is part of the modelled input domain). -/
theorem c5_debounce_two_calls (s : Controller) (t1 t2 : ℚ) (hpos : 0 < t1)
    (hclose : |t2 - t1| < 1 / 5) :
    ((handle_beat s t1).2 ++ (handle_beat (handle_beat s t1).1 t2).2).length ≤ 1 ∧
    ((handle_beat s t1).2 ≠ [] →
      handle_beat (handle_beat s t1).1 t2 = ((handle_beat s t1).1, [])) := by
  have hlt : t2 - t1 < 1 / 5 := lt_of_le_of_lt (le_abs_self _) hclose
  have hkey : (handle_beat s t1).2 ≠ [] →
      handle_beat (handle_beat s t1).1 t2 = ((handle_beat s t1).1, []) := by
    intro hne
    exact handle_beat_of_debounced _ _
      (debounced_of_close _ t1 t2 (handle_beat_emits_ts s t1 hne)
        (ne_of_gt hpos) hlt)
  refine ⟨?_, hkey⟩
  by_cases hne : (handle_beat s t1).2 = []
  · simpa [hne] using handle_beat_emits_le_one (handle_beat s t1).1 t2
  · rw [hkey hne]
    simpa using handle_beat_emits_le_one s t1

/-- Witness for C5: two beats 100 ms apart in `FadeSync` mode. -/
theorem c5_debounce_two_calls_witness :
    ((handle_beat (set_mode Controller.initState .fade_sync).1 1).2 ++
      (handle_beat (handle_beat (set_mode Controller.initState .fade_sync).1 1).1
        (11 / 10)).2).length ≤ 1 ∧
    ((handle_beat (set_mode Controller.initState .fade_sync).1 1).2 ≠ [] →
      handle_beat (handle_beat (set_mode Controller.initState .fade_sync).1 1).1
          (11 / 10) =
        ((handle_beat (set_mode Controller.initState .fade_sync).1 1).1, [])) :=
  c5_debounce_two_calls (set_mode Controller.initState .fade_sync).1 1 (11 / 10)
    (by norm_num) (by rw [abs_sub_lt_iff]; norm_num)

/-- Claim C6: starting from the initial engine state, any sequence of public
operations (`set_mode`, `set_color`, `set_decay_ms`, `handle_beat`) with
arbitrary — possibly out-of-range — arguments only ever emits wire commands
whose colour bytes are in `[0,255]` and whose fade durations are in
`[0,10000]`. -/
theorem c6_wire_commands_in_range (ops : List EngineOp) (cmd : WireCmd)
    (h : cmd ∈ (runOps Controller.initState ops).2) : cmd.inRangeB = true :=
  runOps_emits_inRange ops Controller.initState
    ⟨by norm_num [Controller.initState], by norm_num [Controller.initState]⟩ cmd h

/-- Witness for C6: a run with an out-of-range colour `(300, −5, 99)` and an
out-of-range decay `20000`, whose beat emission is the clamped
`RGB 255 0 99 0 10000`. -/
theorem c6_wire_commands_in_range_witness :
    (WireCmd.rgb 255 0 99 0 10000).inRangeB = true :=
  c6_wire_commands_in_range
    [.setColor (300, -5, 99), .setDecayMs 20000, .setMode .fade_sync,
     .handleBeat 1] _
    (by
      have hno : ¬ (LightMode.off = LightMode.on) := by decide
      have h1 : runOp Controller.initState (EngineOp.setColor (300, -5, 99)) =
          ({ mode := .off, color := (255, 0, 99), fade_out_ms := 1000,
             beat_counter := 0, cycle_index := 0, last_beat_send_ts := none }, []) := by
        norm_num [runOp, set_color, clamp3, clampByte, max_def, min_def,
          Controller.initState, hno]
      have h2 : runOp ({ mode := .off, color := (255, 0, 99), fade_out_ms := 1000,
                         beat_counter := 0, cycle_index := 0, last_beat_send_ts := none })
          (EngineOp.setDecayMs 20000) =
          ({ mode := .off, color := (255, 0, 99), fade_out_ms := 10000,
             beat_counter := 0, cycle_index := 0, last_beat_send_ts := none }, []) := by
        norm_num [runOp, set_decay_ms, truncQ, max_def, min_def]
      have h3 : runOp ({ mode := .off, color := (255, 0, 99), fade_out_ms := 10000,
                         beat_counter := 0, cycle_index := 0, last_beat_send_ts := none })
          (EngineOp.setMode .fade_sync) =
          ({ mode := .fade_sync, color := (255, 0, 99), fade_out_ms := 10000,
             beat_counter := 0, cycle_index := 0, last_beat_send_ts := none }, []) := by
        norm_num [runOp, set_mode, set_mode_state, set_mode_emits]
      have h4 : runOp ({ mode := .fade_sync, color := (255, 0, 99), fade_out_ms := 10000,
                         beat_counter := 0, cycle_index := 0, last_beat_send_ts := none })
          (EngineOp.handleBeat 1) =
          ({ mode := .fade_sync, color := (255, 0, 99), fade_out_ms := 10000,
             beat_counter := 0, cycle_index := 0, last_beat_send_ts := some 1 },
           [WireCmd.rgb 255 0 99 0 10000]) := by
        norm_num [runOp, handle_beat, debounced, sendRgbCmd, clampByte,
          max_def, min_def]
      simp only [runOps, h1, h2, h3, h4]
      simp)

/-- Claim C7: `set_mode` and `set_color` record the requested mode (with
counters and debounce timestamp reset) or clamped colour before attempting
the serial emission; if the send fails the error propagates
(`Except.error`), the stored state equals the state a successful send would
have produced, and any later operation behaves identically to the
successful-send case (the engine never retries). -/
theorem c7_state_recorded_before_send (s : Controller) (m : LightMode)
    (rgb : ℤ × ℤ × ℤ) (ok : Bool) :
    (set_mode_f s m ok).1 = (set_mode_f s m true).1 ∧
    (set_color_f s rgb ok).1 = (set_color_f s rgb true).1 ∧
    (set_mode_f s m ok).1.mode = m ∧
    (set_mode_f s m ok).1.beat_counter = 0 ∧
    (set_mode_f s m ok).1.cycle_index = 0 ∧
    (set_mode_f s m ok).1.last_beat_send_ts = none ∧
    (set_color_f s rgb ok).1.color = clamp3 rgb ∧
    (set_color_f s rgb ok).1.mode = s.mode ∧
    ((set_mode_f s m false).2 = .error () ↔ (m = .off ∨ m = .on)) ∧
    ((set_color_f s rgb false).2 = .error () ↔ s.mode = .on) ∧
    (∀ op : EngineOp, runOp (set_mode_f s m false).1 op =
      runOp (set_mode_f s m true).1 op) ∧
    (∀ op : EngineOp, runOp (set_color_f s rgb false).1 op =
      runOp (set_color_f s rgb true).1 op) := by
  refine ⟨rfl, rfl, rfl, rfl, rfl, rfl, rfl, rfl, ?_, ?_, fun _ => rfl, fun _ => rfl⟩
  · cases m <;> simp [set_mode_f, set_mode_emits]
  · by_cases hm : s.mode = .on <;> simp [set_color_f, hm]

namespace MixxxLight

/-! ## Helpers for the `FadeSyncEvery4` counting result -/

theorem allAccepted_take : ∀ (ts : List ℚ) (k : ℕ) (s : Controller),
    allAccepted s ts = true → allAccepted s (ts.take k) = true := by
  intro ts
  induction ts with
  | nil => intro k s h; simpa using h
  | cons t rest ih =>
    intro k s h
    cases k with
    | zero => rfl
    | succ k =>
      simp only [List.take_succ_cons, allAccepted, Bool.and_eq_true] at h ⊢
      exact ⟨h.1, ih k _ h.2⟩

theorem runBeats_fse4_core : ∀ (ts : List ℚ) (s : Controller) (n : ℕ),
    s.mode = .fade_sync_every_4 → s.beat_counter = ((n : ℤ) % 8) →
    allAccepted s ts = true →
    (runBeats s ts).1.mode = .fade_sync_every_4 ∧
    (runBeats s ts).1.beat_counter = (((n + ts.length : ℕ) : ℤ) % 8) ∧
    (runBeats s ts).2.length = (n + ts.length) / 8 - n / 8 := by
  intro ts
  induction ts with
  | nil =>
    intro s n hm hc _
    refine ⟨hm, ?_, ?_⟩ <;> simp [runBeats, hc]
  | cons t rest ih =>
    intro s n hm hc hacc
    simp only [allAccepted, Bool.and_eq_true, Bool.not_eq_true'] at hacc
    obtain ⟨hd, hacc⟩ := hacc
    by_cases hz : (s.beat_counter + 1) % 8 = 0
    · have hstep : handle_beat s t =
        ({ s with beat_counter := (s.beat_counter + 1) % 8,
                  last_beat_send_ts := some t },
         [sendRgbCmd s.color 0 (max 0 s.fade_out_ms)]) := by
        simp only [handle_beat, hd, Bool.false_eq_true, if_false, hm]
        rw [if_neg (by simpa using hz)]
      have hdvdN : (n + 1) % 8 = 0 := by
        rw [hc] at hz
        omega
      have hcnt : (handle_beat s t).1.beat_counter = (((n + 1 : ℕ) : ℤ) % 8) := by
        rw [hstep]
        simp only
        rw [hc]
        push_cast
        omega
      have hmode : (handle_beat s t).1.mode = .fade_sync_every_4 := by
        rw [hstep]; exact hm
      obtain ⟨ihm, ihc, ihl⟩ := ih (handle_beat s t).1 (n + 1) hmode hcnt hacc
      have hlen1 : (handle_beat s t).2.length = 1 := by simp [hstep]
      refine ⟨?_, ?_, ?_⟩
      · simpa [runBeats] using ihm
      · simp only [runBeats]
        rw [ihc]
        simp only [List.length_cons]
        omega
      · simp only [runBeats, List.length_append]
        rw [hlen1, ihl]
        simp only [List.length_cons]
        omega
    · have hstep : handle_beat s t =
        ({ s with beat_counter := (s.beat_counter + 1) % 8 }, []) := by
        simp only [handle_beat, hd, Bool.false_eq_true, if_false, hm]
        rw [if_pos (by simpa using hz)]
      have hdvdN : ¬ (n + 1) % 8 = 0 := by
        rw [hc] at hz
        omega
      have hcnt : (handle_beat s t).1.beat_counter = (((n + 1 : ℕ) : ℤ) % 8) := by
        rw [hstep]
        simp only
        rw [hc]
        push_cast
        omega
      have hmode : (handle_beat s t).1.mode = .fade_sync_every_4 := by
        rw [hstep]; exact hm
      obtain ⟨ihm, ihc, ihl⟩ := ih (handle_beat s t).1 (n + 1) hmode hcnt hacc
      have hlen1 : (handle_beat s t).2.length = 0 := by simp [hstep]
      refine ⟨?_, ?_, ?_⟩
      · simpa [runBeats] using ihm
      · simp only [runBeats]
        rw [ihc]
        simp only [List.length_cons]
        omega
      · simp only [runBeats, List.length_append]
        rw [hlen1, ihl]
        simp only [List.length_cons]
        omega

end MixxxLight

/-- Claim C1: starting from `set_mode(FadeSyncEvery4)` (counter reset to 0),
along any sequence of accepted (non-debounced) beats the counter advances
modulo 8 and, for every prefix of `k` beats, exactly `⌊k/8⌋` emissions have
happened — i.e. one emission exactly on the 8th, 16th, … accepted beat and
on no other. -/
theorem c1_fse4_one_emission_per_8 (s0 : Controller) (ts : List ℚ) (k : ℕ)
    (hacc : allAccepted (set_mode s0 .fade_sync_every_4).1 ts = true) :
    (runBeats (set_mode s0 .fade_sync_every_4).1 (ts.take k)).2.length =
      min k ts.length / 8 ∧
    (runBeats (set_mode s0 .fade_sync_every_4).1 (ts.take k)).1.beat_counter =
      ((min k ts.length : ℕ) : ℤ) % 8 := by
  have htake := allAccepted_take ts k _ hacc
  have hzero : (set_mode s0 .fade_sync_every_4).1.beat_counter =
      (((0 : ℕ) : ℤ) % 8) := by
    simp [set_mode, set_mode_state]
  have hcore := runBeats_fse4_core (ts.take k) (set_mode s0 .fade_sync_every_4).1 0
    rfl hzero htake
  obtain ⟨-, hcnt, hlen⟩ := hcore
  constructor
  · rw [hlen]
    simp [List.length_take]
  · rw [hcnt]
    simp [List.length_take]

/-- Witness for C1: eight accepted beats, one second apart, produce exactly
one emission and leave the counter at 0. -/
theorem c1_fse4_one_emission_per_8_witness :
    (runBeats (set_mode Controller.initState .fade_sync_every_4).1
        (([1, 2, 3, 4, 5, 6, 7, 8] : List ℚ).take 8)).2.length =
      min 8 ([1, 2, 3, 4, 5, 6, 7, 8] : List ℚ).length / 8 ∧
    (runBeats (set_mode Controller.initState .fade_sync_every_4).1
        (([1, 2, 3, 4, 5, 6, 7, 8] : List ℚ).take 8)).1.beat_counter =
      ((min 8 ([1, 2, 3, 4, 5, 6, 7, 8] : List ℚ).length : ℕ) : ℤ) % 8 :=
  c1_fse4_one_emission_per_8 Controller.initState [1, 2, 3, 4, 5, 6, 7, 8] 8
    (by norm_num [allAccepted, handle_beat, debounced, set_mode, set_mode_state,
      Controller.initState, sendRgbCmd, clampByte, max_def, min_def])

namespace MixxxLight

theorem clamp01_ge_one_iff (q : ℚ) : 1 ≤ clamp01 q ↔ 1 ≤ q := by
  rw [← not_lt, clamp01_lt_one_iff, not_lt]

end MixxxLight

/-- Claim C2: a channel fade started at `t0` with stored target `T > 0`
(`T ≤ 255` so clamping stores it verbatim), `fadeInMs = F > 0` and
`fadeOutMs = D > 0`, advanced exactly at `t0+F`, returns level exactly `T`
and moves to the Out phase (restarted at `t0+F`); advanced again exactly at
`t0+F+D` it returns level exactly `0` and moves to Idle; and between `t0+F`
and `t0+F+D` the returned levels are non-increasing in time. -/
theorem c2_fade_round_trip (c0 : ChannelFade) (T F D : ℤ) (t0 t u : ℚ)
    (hT0 : 0 < T) (hT1 : T ≤ 255) (hF : 0 < F) (hD : 0 < D)
    (ht : t0 + (F : ℚ) ≤ t) (htu : t ≤ u) (hu : u ≤ t0 + (F : ℚ) + (D : ℚ)) :
    ((c0.start T F D t0).advance (t0 + (F : ℚ))).2 = some T ∧
    ((c0.start T F D t0).advance (t0 + (F : ℚ))).1.phase = .outFade ∧
    ((c0.start T F D t0).advance (t0 + (F : ℚ))).1.phase_start_ms = t0 + (F : ℚ) ∧
    (((c0.start T F D t0).advance (t0 + (F : ℚ))).1.advance
        (t0 + (F : ℚ) + (D : ℚ))).2 = some 0 ∧
    (((c0.start T F D t0).advance (t0 + (F : ℚ))).1.advance
        (t0 + (F : ℚ) + (D : ℚ))).1.phase = .idle ∧
    ((((c0.start T F D t0).advance (t0 + (F : ℚ))).1.advance u).2.getD 0 ≤
      (((c0.start T F D t0).advance (t0 + (F : ℚ))).1.advance t).2.getD 0) := by
  have hFQ : (0 : ℚ) < (F : ℚ) := by exact_mod_cast hF
  have hDQ : (0 : ℚ) < (D : ℚ) := by exact_mod_cast hD
  have hTQ : (0 : ℚ) ≤ (T : ℚ) := by exact_mod_cast hT0.le
  have hstart : c0.start T F D t0 =
      { target := T, fade_in_ms := F, fade_out_ms := D, phase_start_ms := t0,
        phase := .inFade } := by
    unfold ChannelFade.start
    simp only [clampByte_of_range T hT0.le hT1, max_eq_right hF.le, max_eq_right hD.le]
    rw [if_neg (by omega)]
  have hprog1 : (t0 + (F : ℚ) - t0) / (F : ℚ) = 1 := by
    field_simp
  have hadv1 : (c0.start T F D t0).advance (t0 + (F : ℚ)) =
      ({ target := T, fade_in_ms := F, fade_out_ms := D,
         phase_start_ms := t0 + (F : ℚ), phase := .outFade }, some T) := by
    rw [hstart]
    unfold ChannelFade.advance
    simp only [hprog1]
    rw [if_neg (by omega : ¬ F = 0)]
    rw [if_pos ((clamp01_ge_one_iff _).mpr (by norm_num)), if_pos hD]
  have hadvx : ∀ x : ℚ,
      ({ target := T, fade_in_ms := F, fade_out_ms := D,
         phase_start_ms := t0 + (F : ℚ), phase := .outFade } :
        ChannelFade).advance x =
      (if 1 ≤ (x - (t0 + (F : ℚ))) / (D : ℚ) then
        (ChannelFade.resetState, some 0)
      else
        ({ target := T, fade_in_ms := F, fade_out_ms := D,
           phase_start_ms := t0 + (F : ℚ), phase := .outFade },
          some (truncQ ((T : ℚ) *
            (1 - clamp01 ((x - (t0 + (F : ℚ))) / (D : ℚ))))))) := by
    intro x
    unfold ChannelFade.advance
    simp only
    rw [if_neg (by omega : ¬ D = 0)]
    by_cases h1 : 1 ≤ (x - (t0 + (F : ℚ))) / (D : ℚ)
    · rw [if_pos ((clamp01_ge_one_iff _).mpr h1), if_pos h1]
    · rw [if_neg (fun hh => h1 ((clamp01_ge_one_iff _).mp hh)),
        if_neg h1]
  have hprog2 : (t0 + (F : ℚ) + (D : ℚ) - (t0 + (F : ℚ))) / (D : ℚ) = 1 := by
    field_simp
  refine ⟨by rw [hadv1], by rw [hadv1], by rw [hadv1], ?_, ?_, ?_⟩
  · rw [hadv1]
    simp only
    rw [hadvx, if_pos (by rw [hprog2])]
  · rw [hadv1]
    simp only
    rw [hadvx, if_pos (by rw [hprog2])]
    rfl
  · rw [hadv1]
    simp only
    rw [hadvx u, hadvx t]
    by_cases hu1 : 1 ≤ (u - (t0 + (F : ℚ))) / (D : ℚ)
    · rw [if_pos hu1]
      by_cases ht1 : 1 ≤ (t - (t0 + (F : ℚ))) / (D : ℚ)
      · rw [if_pos ht1]
      · rw [if_neg ht1]
        simp only [Option.getD_some]
        exact truncQ_nonneg _ (mul_nonneg hTQ
          (by linarith [clamp01_le_one ((t - (t0 + (F : ℚ))) / (D : ℚ))]))
    · rw [if_neg hu1]
      have hple : (t - (t0 + (F : ℚ))) / (D : ℚ) ≤ (u - (t0 + (F : ℚ))) / (D : ℚ) :=
        div_le_div_of_nonneg_right (by linarith) hDQ.le
      have ht1 : ¬ 1 ≤ (t - (t0 + (F : ℚ))) / (D : ℚ) := by
        intro hh
        exact hu1 (hh.trans hple)
      rw [if_neg ht1]
      simp only [Option.getD_some]
      apply truncQ_mono_of_nonneg
      · exact mul_nonneg hTQ
          (by linarith [clamp01_le_one ((u - (t0 + (F : ℚ))) / (D : ℚ))])
      · exact mul_le_mul_of_nonneg_left
          (by linarith [clamp01_mono hple]) hTQ

/-- Witness for C2: target 100, fade-in 50 ms, fade-out 80 ms started at 0;
checked at 50 ms, at two interior instants 60 and 100 ms, and at 130 ms. -/
theorem c2_fade_round_trip_witness :
    ((ChannelFade.resetState.start 100 50 80 0).advance (0 + ((50 : ℤ) : ℚ))).2 =
      some 100 ∧
    ((ChannelFade.resetState.start 100 50 80 0).advance
        (0 + ((50 : ℤ) : ℚ))).1.phase = .outFade ∧
    ((ChannelFade.resetState.start 100 50 80 0).advance
        (0 + ((50 : ℤ) : ℚ))).1.phase_start_ms = 0 + ((50 : ℤ) : ℚ) ∧
    (((ChannelFade.resetState.start 100 50 80 0).advance
        (0 + ((50 : ℤ) : ℚ))).1.advance
        (0 + ((50 : ℤ) : ℚ) + ((80 : ℤ) : ℚ))).2 = some 0 ∧
    (((ChannelFade.resetState.start 100 50 80 0).advance
        (0 + ((50 : ℤ) : ℚ))).1.advance
        (0 + ((50 : ℤ) : ℚ) + ((80 : ℤ) : ℚ))).1.phase = .idle ∧
    ((((ChannelFade.resetState.start 100 50 80 0).advance
        (0 + ((50 : ℤ) : ℚ))).1.advance 100).2.getD 0 ≤
      (((ChannelFade.resetState.start 100 50 80 0).advance
        (0 + ((50 : ℤ) : ℚ))).1.advance 60).2.getD 0) :=
  c2_fade_round_trip ChannelFade.resetState 100 50 80 0 60 100
    (by norm_num) (by norm_num) (by norm_num) (by norm_num)
    (by norm_num) (by norm_num) (by norm_num)
